import Mathlib

/-!
Shallow embedding of `fitbit.go` (package `fitbit`), a thin HTTP client
for the Fitbit web API.  The repository's own code (the record types,
`NewRequest`, `Do`, `ActivitySummaryForDay`, `UserProfile`) is translated
function by function.  External collaborators (the Go standard library's
`net/url`, `net/http`, `encoding/json`, and the OAuth2 transport) are not
part of the repository; they are modelled as follows:

* JSON documents are the inductive `Json` below; a response body is an
  `Option Json` (`none` stands for a body that is not well-formed JSON,
  on which `json.Decoder.Decode` fails).  JSON numbers are modelled as
  rationals (`Rat`); decoding a number into a Go `int` field requires the
  rational to be integral, mirroring `encoding/json`'s type check.
* `encoding/json`'s struct decoding is modelled per record type: the
  decoder folds over the fields of a JSON object, writing each matching
  field into the destination, ignoring unknown keys, continuing past a
  type mismatch and reporting the first such error at the end - this is
  the documented behaviour of `json.Unmarshal` for `UnmarshalTypeError`,
  and in particular the destination keeps every field written before
  (and after) the offending one.
* `url.Parse` / `URL.String` are modelled as a validity test plus the
  identity, on a fragment where both are exact in Go: strings of
  unreserved ASCII characters (alphanumerics and the four specials
  dash, dot, underscore, tilde), slashes and colons, with a colon in the
  first path segment permitted only as part of a well-formed scheme.  On
  this fragment Go's `url.Parse` succeeds and `URL.String()` returns its
  input verbatim (nothing is percent-encoded or normalized).  Strings
  outside the fragment (control characters, spaces, percent escapes,
  non-ASCII characters, misplaced colons) are modelled as failing to
  parse: the model never asserts the plain-concatenation address where
  Go would re-encode.
* `http.NewRequest` is modelled with its method validation: the empty
  method defaults to GET, and a method containing a character outside
  the RFC 7230 token set is rejected, as net/http does.
* the transport (`c.Client.Do`) is a parameter
  `send : Request -> Except String Response`; `.error` is a network-level
  failure, `.ok` a received response.
* `resp.Body.Close()` calls are counted: every execution result carries
  the number of times the body of the received response was closed.
-/

/-- JSON values.  Numbers are rationals (JSON numerals are exact decimal
literals; the float64 fields of the Go records are modelled as `Rat`). -/
inductive Json where
  | null : Json
  | bool : Bool → Json
  | num : Rat → Json
  | str : String → Json
  | arr : List Json → Json
  | obj : List (String × Json) → Json
deriving Repr

/-- `type Goals struct` of `fitbit.go`. -/
structure Goals where
  ActiveMinutes : Int
  CaloriesOut : Int
  Distance : Rat
  Steps : Int
deriving Repr, DecidableEq

/-- `type Distance struct` of `fitbit.go`.  The source names the second
field `Distance`, like the type; Lean cannot give a field the name of
its own structure, so it is `DistanceValue` here. -/
structure Distance where
  Activity : String
  DistanceValue : Rat
deriving Repr, DecidableEq

/-- `type Summary struct` of `fitbit.go`. -/
structure Summary where
  ActiveScore : Int
  ActivityCalories : Int
  CaloriesBMR : Int
  CaloriesOut : Int
  Distances : List Distance
  FairlyActiveMinutes : Int
  LightlyActiveMinutes : Int
  MarginalCalories : Int
  SedentaryMinutes : Int
  Steps : Int
  VeryActiveMinutes : Int
deriving Repr, DecidableEq

/-- `type ActivitySummary struct` of `fitbit.go`. -/
structure ActivitySummary where
  Goals : Goals
  Summary : Summary
deriving Repr, DecidableEq

/-- `type User struct` of `fitbit.go`. -/
structure User where
  StrideLengthRunningType : String
  Weight : Rat
  Age : Int
  FullName : String
  Gender : String
  GlucoseUnit : String
  Country : String
  StrideLengthWalking : Rat
  Avatar : String
  EncodedID : String
  StartDayOfWeek : String
  Avatar150 : String
  Corporate : Bool
  DateOfBirth : String
  HeightUnit : String
  Locale : String
  MemberSince : String
  OffsetFromUTCMillis : Int
  AverageDailySteps : Int
  Timezone : String
  StrideLengthRunning : Rat
  WeightUnit : String
  DistanceUnit : String
  Height : Rat
  StrideLengthWalkingType : String
  DisplayName : String
deriving Repr, DecidableEq

/-- `type UserProfile struct` of `fitbit.go`. -/
structure UserProfile where
  User : User
deriving Repr, DecidableEq

/-- Go zero value of `Goals` (`var summary ActivitySummary`). -/
def Goals.zero : Goals := ⟨0, 0, 0, 0⟩

/-- Go zero value of `Summary`. -/
def Summary.zero : Summary := ⟨0, 0, 0, 0, [], 0, 0, 0, 0, 0, 0⟩

/-- Go zero value of `ActivitySummary`. -/
def ActivitySummary.zero : ActivitySummary := ⟨Goals.zero, Summary.zero⟩

/-- Go zero value of `Distance`. -/
def Distance.zero : Distance := ⟨"", 0⟩

/-- Go zero value of `User`. -/
def User.zero : User :=
  ⟨"", 0, 0, "", "", "", "", 0, "", "", "", "", false, "", "", "", "",
   0, 0, "", 0, "", "", 0, "", ""⟩

/-- Go zero value of `UserProfile` (`var profile UserProfile`). -/
def UserProfile.zero : UserProfile := ⟨User.zero⟩

/-- `const BASE_URL` of `fitbit.go`. -/
def BASE_URL : String := "https://api.fitbit.com/1"

/-- `const USER_AGENT` of `fitbit.go`. -/
def USER_AGENT : String := "go-fitbit-api:v0.0.1"

/-- Characters of the modelled `net/url` fragment: unreserved ASCII
characters (which Go never percent-encodes), slashes, and colons (whose
placement `colonOk` checks separately). -/
def simpleURLChar (c : Char) : Bool :=
  c.isAlphanum || c = '-' || c = '.' || c = '_' || c = '~' || c = '/' ||
  c = ':'

/-- Characters Go's `url.getScheme` accepts after the first letter of a
scheme. -/
def schemeCharOk (c : Char) : Bool :=
  c.isAlphanum || c = '.' || c = '-' || c = '+'

/-- Colon placement accepted by Go's `url.Parse`: a colon in the first
path segment (before any slash) is allowed only when everything before
it is a well-formed scheme (a letter followed by scheme characters);
otherwise `url.Parse` fails with a missing-scheme or
colon-in-first-segment error.  Colons after the first slash are plain
path characters and survive `URL.String()` verbatim. -/
def colonOk (cs : List Char) : Bool :=
  if (cs.takeWhile (fun c => c ≠ '/')).contains ':' then
    match cs.takeWhile (fun c => c ≠ ':') with
    | [] => false
    | c :: rest => c.isAlpha && rest.all schemeCharOk
  else true

/-- A string is in the modelled fragment of `net/url`: on such strings
Go's `url.Parse` succeeds and `URL.String()` re-serialises them
verbatim, so parse-then-String is the identity. -/
def validURLString (s : String) : Bool :=
  s.data.all simpleURLChar && colonOk s.data

/-- Model of `url.Parse`: a parsed URL is the underlying string, and
parsing succeeds exactly on the `validURLString` fragment.  Strings Go
would parse but re-encode on `String()` (e.g. non-ASCII path
characters) are outside the model's domain and treated as parse
failures, so no theorem below asserts the concatenation address for
them. -/
def urlParse (s : String) : Option String :=
  if validURLString s then some s else none

/-- An outgoing HTTP request, as built by `http.NewRequest` plus the
header line added in `Client.NewRequest`.  The body buffer is kept as
the encoded JSON value (`none` for the empty buffer of a nil body). -/
structure Request where
  method : String
  url : String
  body : Option Json
  headers : List (String × String)
deriving Repr

/-- An HTTP response as seen by `Client.Do`: a status code and a body.
`body = none` stands for a body that is not well-formed JSON. -/
structure Response where
  statusCode : Nat
  body : Option Json
deriving Repr

/-- The error conditions of the client, following the spec's taxonomy
(section 7).  In the Go source these are plain `error` values:
`MalformedInput` is the error returned by `url.Parse` or
`json.Encoder.Encode` inside `NewRequest`; `TransportError` is the error
of `c.Client.Do`; `RequestFailed` is the `errors.New` value built in
`Do`, which embeds the whole response via `fmt.Sprintf("%#v", resp)` -
modelled as carrying the `Response` value itself; `DecodeError` is the
error of `json.Decoder.Decode`. -/
inductive ClientError where
  | malformedInput : String → ClientError
  | transport : String → ClientError
  | requestFailed : Response → ClientError
  | decodeError : String → ClientError
deriving Repr

/-- The payload argument of `NewRequest` (`body interface{}`): either a
Go value that serialises to the given JSON, or one on which
`json.Encoder.Encode` fails with the given message (e.g. a channel or a
cyclic value). -/
inductive Payload where
  | encodable : Json → Payload
  | unencodable : String → Payload
deriving Repr

/-- Model of `json.NewEncoder(buf).Encode(body)`: the buffer contents on
success, or the serialisation error. -/
def encodePayload : Payload → Except String Json
  | .encodable j => .ok j
  | .unencodable e => .error e

/-- RFC 7230 token characters, as accepted by net/http's method
validation: ASCII letters and digits and the token specials (39 and 96
are the code points of the apostrophe and the backquote, which are
token characters too). -/
def isTokenChar (c : Char) : Bool :=
  c.isAlphanum || c = '!' || c = '#' || c = '$' || c = '%' || c = '&' ||
  c = '*' || c = '+' || c = '-' || c = '.' || c = '^' || c = '_' ||
  c = '|' || c = '~' || c.toNat = 39 || c.toNat = 96

/-- Model of net/http's `validMethod`: a method is valid iff it is a
non-empty string of RFC 7230 token characters. -/
def validMethod (m : String) : Bool :=
  m.length > 0 && m.data.all isTokenChar

/-- Model of `http.NewRequest` on an already-validated address string:
the empty method defaults to GET (documented net/http behaviour), a
method that is not a valid token is rejected with an invalid-method
error, and the address is taken as is (it re-parses, having just been
produced by `URL.String()`).  Headers start empty; the caller adds
them. -/
def httpNewRequest (method url : String) (body : Option Json) :
    Except ClientError Request :=
  if validMethod (if method = "" then "GET" else method) then
    .ok ⟨if method = "" then "GET" else method, url, body, []⟩
  else .error (.malformedInput "net/http: invalid method")

/-- `Client.NewRequest` of `fitbit.go`: parse `urlStr`, parse
`c.BaseUrl.String() + urlStr` (plain string concatenation), encode the
optional body into the buffer, build the request at
`resolvedUrl.String()` via `http.NewRequest` (which validates the
method), and add the `User-Agent` header.  The base URL of every client
built by `NewClient` is `BASE_URL`, so the concatenation is with
`BASE_URL`.  The builder has no access to the transport: no network
call can occur here by construction. -/
def NewRequest (method urlStr : String) (body : Option Payload) :
    Except ClientError Request :=
  match urlParse urlStr with
  | none => .error (.malformedInput "parse")
  | some _ =>
    match urlParse (BASE_URL ++ urlStr) with
    | none => .error (.malformedInput "parse")
    | some resolvedUrl =>
      match body with
      | none =>
        match httpNewRequest method resolvedUrl none with
        | .error e => .error e
        | .ok req =>
          .ok { req with headers := [("User-Agent", USER_AGENT)] }
      | some p =>
        match encodePayload p with
        | .error e => .error (.malformedInput e)
        | .ok j =>
          match httpNewRequest method resolvedUrl (some j) with
          | .error e => .error e
          | .ok req =>
            .ok { req with headers := [("User-Agent", USER_AGENT)] }

/-- The observable outcome of one `Client.Do` call: the returned
`*http.Response` (`none` for Go `nil`), the returned error, the contents
of the destination cell after the call (`none` when a nil destination
was passed), and how many times `resp.Body.Close()` ran during the
call. -/
structure DoResult (α : Type) where
  resp : Option Response
  err : Option ClientError
  dest : Option α
  closes : Nat
deriving Repr

/-- `Client.Do` of `fitbit.go`, generic in the destination type and its
JSON decoder `dec` (a decoder takes the JSON document and the current
destination value and returns the updated destination plus the first
type error, if any).  Mirrors the source line by line: send; on send
error return `(nil, err)` with no body ever received; `defer
resp.Body.Close()` (one close on every later path); on a status outside
[200, 299] return `(nil, RequestFailed)`; otherwise decode into the
destination when it is non-nil; return `(resp, err)`. -/
def Client.Do {α : Type} (send : Request → Except String Response)
    (dec : Json → α → α × Option String) (req : Request)
    (dest : Option α) : DoResult α :=
  match send req with
  | .error e => ⟨none, some (.transport e), dest, 0⟩
  | .ok resp =>
    if resp.statusCode > 299 ∨ resp.statusCode < 200 then
      ⟨none, some (.requestFailed resp), dest, 1⟩
    else
      match dest with
      | none => ⟨some resp, none, none, 1⟩
      | some d =>
        match resp.body with
        | none =>
          ⟨some resp, some (.decodeError "invalid JSON"), some d, 1⟩
        | some j =>
          let r := dec j d
          ⟨some resp, r.2.map .decodeError, some r.1, 1⟩

/-- Read a JSON value as a Go `int`: `encoding/json` accepts only an
integral number. -/
def asInt : Json → Option Int
  | .num q => if q.den = 1 then some q.num else none
  | _ => none

/-- Read a JSON value as a Go `float64` (modelled as `Rat`). -/
def asRat : Json → Option Rat
  | .num q => some q
  | _ => none

/-- Read a JSON value as a Go `string`. -/
def asStr : Json → Option String
  | .str s => some s
  | _ => none

/-- Read a JSON value as a Go `bool`. -/
def asBool : Json → Option Bool
  | .bool b => some b
  | _ => none

/-- Fold a JSON object's fields into a destination record with a
per-field setter, keeping the first type error but continuing to decode
the remaining fields, as `json.Unmarshal` does for
`UnmarshalTypeError`. -/
def decodeFields {α : Type} (set : α → String → Json → α × Option String)
    (a : α) (fs : List (String × Json)) : α × Option String :=
  fs.foldl (fun p kv =>
    let r := set p.1 kv.1 kv.2
    (r.1, p.2 <|> r.2)) (a, none)

/-- One field of a JSON object decoded into `Goals` (tags from the
struct's `json:"..."` tags; unknown keys are ignored). -/
def setGoalsField (g : Goals) (k : String) (v : Json) :
    Goals × Option String :=
  if k = "activeMinutes" then
    match asInt v with
    | some n => ({ g with ActiveMinutes := n }, none)
    | none => (g, some "cannot unmarshal into Goals.ActiveMinutes")
  else if k = "caloriesOut" then
    match asInt v with
    | some n => ({ g with CaloriesOut := n }, none)
    | none => (g, some "cannot unmarshal into Goals.CaloriesOut")
  else if k = "distance" then
    match asRat v with
    | some q => ({ g with Distance := q }, none)
    | none => (g, some "cannot unmarshal into Goals.Distance")
  else if k = "steps" then
    match asInt v with
    | some n => ({ g with Steps := n }, none)
    | none => (g, some "cannot unmarshal into Goals.Steps")
  else (g, none)

/-- Decode a JSON value into a `Goals` destination (JSON `null` into a
Go struct is a no-op without error). -/
def decodeGoals (j : Json) (g : Goals) : Goals × Option String :=
  match j with
  | .obj fs => decodeFields setGoalsField g fs
  | .null => (g, none)
  | _ => (g, some "cannot unmarshal into Goals")

/-- One field of a JSON object decoded into `Distance`. -/
def setDistanceField (d : Distance) (k : String) (v : Json) :
    Distance × Option String :=
  if k = "activity" then
    match asStr v with
    | some s => ({ d with Activity := s }, none)
    | none => (d, some "cannot unmarshal into Distance.Activity")
  else if k = "distance" then
    match asRat v with
    | some q => ({ d with DistanceValue := q }, none)
    | none => (d, some "cannot unmarshal into Distance.Distance")
  else (d, none)

/-- Decode a JSON value into a `Distance` destination. -/
def decodeDistance (j : Json) (d : Distance) : Distance × Option String :=
  match j with
  | .obj fs => decodeFields setDistanceField d fs
  | .null => (d, none)
  | _ => (d, some "cannot unmarshal into Distance")

/-- One field of a JSON object decoded into `Summary`.  A JSON array
under `"distances"` replaces the slice, each element decoded into a
fresh zero `Distance`; JSON `null` sets the slice to nil. -/
def setSummaryField (s : Summary) (k : String) (v : Json) :
    Summary × Option String :=
  if k = "activeScore" then
    match asInt v with
    | some n => ({ s with ActiveScore := n }, none)
    | none => (s, some "cannot unmarshal into Summary.ActiveScore")
  else if k = "activityCalories" then
    match asInt v with
    | some n => ({ s with ActivityCalories := n }, none)
    | none => (s, some "cannot unmarshal into Summary.ActivityCalories")
  else if k = "caloriesBMR" then
    match asInt v with
    | some n => ({ s with CaloriesBMR := n }, none)
    | none => (s, some "cannot unmarshal into Summary.CaloriesBMR")
  else if k = "caloriesOut" then
    match asInt v with
    | some n => ({ s with CaloriesOut := n }, none)
    | none => (s, some "cannot unmarshal into Summary.CaloriesOut")
  else if k = "distances" then
    match v with
    | .arr xs =>
      let rs := xs.map (fun x => decodeDistance x Distance.zero)
      ({ s with Distances := rs.map Prod.fst },
       (rs.map Prod.snd).foldl (fun a b => a <|> b) none)
    | .null => ({ s with Distances := [] }, none)
    | _ => (s, some "cannot unmarshal into Summary.Distances")
  else if k = "fairlyActiveMinutes" then
    match asInt v with
    | some n => ({ s with FairlyActiveMinutes := n }, none)
    | none => (s, some "cannot unmarshal into Summary.FairlyActiveMinutes")
  else if k = "lightlyActiveMinutes" then
    match asInt v with
    | some n => ({ s with LightlyActiveMinutes := n }, none)
    | none => (s, some "cannot unmarshal into Summary.LightlyActiveMinutes")
  else if k = "marginalCalories" then
    match asInt v with
    | some n => ({ s with MarginalCalories := n }, none)
    | none => (s, some "cannot unmarshal into Summary.MarginalCalories")
  else if k = "sedentaryMinutes" then
    match asInt v with
    | some n => ({ s with SedentaryMinutes := n }, none)
    | none => (s, some "cannot unmarshal into Summary.SedentaryMinutes")
  else if k = "steps" then
    match asInt v with
    | some n => ({ s with Steps := n }, none)
    | none => (s, some "cannot unmarshal into Summary.Steps")
  else if k = "veryActiveMinutes" then
    match asInt v with
    | some n => ({ s with VeryActiveMinutes := n }, none)
    | none => (s, some "cannot unmarshal into Summary.VeryActiveMinutes")
  else (s, none)

/-- Decode a JSON value into a `Summary` destination. -/
def decodeSummary (j : Json) (s : Summary) : Summary × Option String :=
  match j with
  | .obj fs => decodeFields setSummaryField s fs
  | .null => (s, none)
  | _ => (s, some "cannot unmarshal into Summary")

/-- One field of a JSON object decoded into `ActivitySummary`: the
`"goals"` and `"summary"` keys decode into the nested structs in
place. -/
def setActivitySummaryField (a : ActivitySummary) (k : String)
    (v : Json) : ActivitySummary × Option String :=
  if k = "goals" then
    let r := decodeGoals v a.Goals
    ({ a with Goals := r.1 }, r.2)
  else if k = "summary" then
    let r := decodeSummary v a.Summary
    ({ a with Summary := r.1 }, r.2)
  else (a, none)

/-- Decode a JSON value into an `ActivitySummary` destination: the model
of `json.NewDecoder(resp.Body).Decode(&summary)`. -/
def decodeActivitySummary (j : Json) (a : ActivitySummary) :
    ActivitySummary × Option String :=
  match j with
  | .obj fs => decodeFields setActivitySummaryField a fs
  | .null => (a, none)
  | _ => (a, some "cannot unmarshal into ActivitySummary")

/-- One field of a JSON object decoded into `User` (tags from the
struct's `json:"..."` tags; unknown keys, such as `topBadges` and
`features`, are ignored). -/
def setUserField (u : User) (k : String) (v : Json) :
    User × Option String :=
  if k = "strideLengthRunningType" then
    match asStr v with
    | some s => ({ u with StrideLengthRunningType := s }, none)
    | none => (u, some "cannot unmarshal into User.StrideLengthRunningType")
  else if k = "weight" then
    match asRat v with
    | some q => ({ u with Weight := q }, none)
    | none => (u, some "cannot unmarshal into User.Weight")
  else if k = "age" then
    match asInt v with
    | some n => ({ u with Age := n }, none)
    | none => (u, some "cannot unmarshal into User.Age")
  else if k = "fullName" then
    match asStr v with
    | some s => ({ u with FullName := s }, none)
    | none => (u, some "cannot unmarshal into User.FullName")
  else if k = "gender" then
    match asStr v with
    | some s => ({ u with Gender := s }, none)
    | none => (u, some "cannot unmarshal into User.Gender")
  else if k = "glucoseUnit" then
    match asStr v with
    | some s => ({ u with GlucoseUnit := s }, none)
    | none => (u, some "cannot unmarshal into User.GlucoseUnit")
  else if k = "country" then
    match asStr v with
    | some s => ({ u with Country := s }, none)
    | none => (u, some "cannot unmarshal into User.Country")
  else if k = "strideLengthWalking" then
    match asRat v with
    | some q => ({ u with StrideLengthWalking := q }, none)
    | none => (u, some "cannot unmarshal into User.StrideLengthWalking")
  else if k = "avatar" then
    match asStr v with
    | some s => ({ u with Avatar := s }, none)
    | none => (u, some "cannot unmarshal into User.Avatar")
  else if k = "encodedId" then
    match asStr v with
    | some s => ({ u with EncodedID := s }, none)
    | none => (u, some "cannot unmarshal into User.EncodedID")
  else if k = "startDayOfWeek" then
    match asStr v with
    | some s => ({ u with StartDayOfWeek := s }, none)
    | none => (u, some "cannot unmarshal into User.StartDayOfWeek")
  else if k = "avatar150" then
    match asStr v with
    | some s => ({ u with Avatar150 := s }, none)
    | none => (u, some "cannot unmarshal into User.Avatar150")
  else if k = "corporate" then
    match asBool v with
    | some b => ({ u with Corporate := b }, none)
    | none => (u, some "cannot unmarshal into User.Corporate")
  else if k = "dateOfBirth" then
    match asStr v with
    | some s => ({ u with DateOfBirth := s }, none)
    | none => (u, some "cannot unmarshal into User.DateOfBirth")
  else if k = "heightUnit" then
    match asStr v with
    | some s => ({ u with HeightUnit := s }, none)
    | none => (u, some "cannot unmarshal into User.HeightUnit")
  else if k = "locale" then
    match asStr v with
    | some s => ({ u with Locale := s }, none)
    | none => (u, some "cannot unmarshal into User.Locale")
  else if k = "memberSince" then
    match asStr v with
    | some s => ({ u with MemberSince := s }, none)
    | none => (u, some "cannot unmarshal into User.MemberSince")
  else if k = "offsetFromUTCMillis" then
    match asInt v with
    | some n => ({ u with OffsetFromUTCMillis := n }, none)
    | none => (u, some "cannot unmarshal into User.OffsetFromUTCMillis")
  else if k = "averageDailySteps" then
    match asInt v with
    | some n => ({ u with AverageDailySteps := n }, none)
    | none => (u, some "cannot unmarshal into User.AverageDailySteps")
  else if k = "timezone" then
    match asStr v with
    | some s => ({ u with Timezone := s }, none)
    | none => (u, some "cannot unmarshal into User.Timezone")
  else if k = "strideLengthRunning" then
    match asRat v with
    | some q => ({ u with StrideLengthRunning := q }, none)
    | none => (u, some "cannot unmarshal into User.StrideLengthRunning")
  else if k = "weightUnit" then
    match asStr v with
    | some s => ({ u with WeightUnit := s }, none)
    | none => (u, some "cannot unmarshal into User.WeightUnit")
  else if k = "distanceUnit" then
    match asStr v with
    | some s => ({ u with DistanceUnit := s }, none)
    | none => (u, some "cannot unmarshal into User.DistanceUnit")
  else if k = "height" then
    match asRat v with
    | some q => ({ u with Height := q }, none)
    | none => (u, some "cannot unmarshal into User.Height")
  else if k = "strideLengthWalkingType" then
    match asStr v with
    | some s => ({ u with StrideLengthWalkingType := s }, none)
    | none => (u, some "cannot unmarshal into User.StrideLengthWalkingType")
  else if k = "displayName" then
    match asStr v with
    | some s => ({ u with DisplayName := s }, none)
    | none => (u, some "cannot unmarshal into User.DisplayName")
  else (u, none)

/-- Decode a JSON value into a `User` destination. -/
def decodeUser (j : Json) (u : User) : User × Option String :=
  match j with
  | .obj fs => decodeFields setUserField u fs
  | .null => (u, none)
  | _ => (u, some "cannot unmarshal into User")

/-- One field of a JSON object decoded into `UserProfile`: the `"user"`
key decodes into the nested `User` in place. -/
def setUserProfileField (p : UserProfile) (k : String) (v : Json) :
    UserProfile × Option String :=
  if k = "user" then
    let r := decodeUser v p.User
    ({ p with User := r.1 }, r.2)
  else (p, none)

/-- Decode a JSON value into a `UserProfile` destination: the model of
`json.NewDecoder(resp.Body).Decode(&profile)`. -/
def decodeUserProfile (j : Json) (p : UserProfile) :
    UserProfile × Option String :=
  match j with
  | .obj fs => decodeFields setUserProfileField p fs
  | .null => (p, none)
  | _ => (p, some "cannot unmarshal into UserProfile")

/-- The observable outcome of one accessor call: the returned record,
the returned error, and how many times the response body (when a
response was received) was closed during the whole call. -/
structure AccessorResult (α : Type) where
  value : α
  err : Option ClientError
  closes : Nat
deriving Repr

/-- `Client.ActivitySummaryForDay` of `fitbit.go`: build a GET request
at the day-scoped activity path (the `fmt.Sprintf` of the source with
`dayString` substituted) with a nil body; on a builder error return the
zero summary with the error;
run `Do` with `&summary` as the destination; on a `Do` error return
the (possibly written-into) summary with that error; otherwise call
`resp.Body.Close()` once more and return the summary with no error. -/
def Client.ActivitySummaryForDay (send : Request → Except String Response)
    (dayString : String) : AccessorResult ActivitySummary :=
  match NewRequest "GET"
      ("/user/-/activities/date/" ++ dayString ++ ".json") none with
  | .error e => ⟨ActivitySummary.zero, some e, 0⟩
  | .ok req =>
    let r := Client.Do send decodeActivitySummary req
      (some ActivitySummary.zero)
    match r.err with
    | some e => ⟨r.dest.getD ActivitySummary.zero, some e, r.closes⟩
    | none => ⟨r.dest.getD ActivitySummary.zero, none, r.closes + 1⟩

/-- `Client.UserProfile` of `fitbit.go`: build a GET request at the
current-user profile path with a nil body; on a builder error return the
zero profile with the error; run `Do` with `&profile` as the
destination; on a `Do` error return the (possibly written-into) profile
with that error; otherwise call `resp.Body.Close()` once more and
return the profile with no error. -/
def Client.UserProfile (send : Request → Except String Response) :
    AccessorResult UserProfile :=
  match NewRequest "GET" "/user/-/profile.json" none with
  | .error e => ⟨UserProfile.zero, some e, 0⟩
  | .ok req =>
    let r := Client.Do send decodeUserProfile req (some UserProfile.zero)
    match r.err with
    | some e => ⟨r.dest.getD UserProfile.zero, some e, r.closes⟩
    | none => ⟨r.dest.getD UserProfile.zero, none, r.closes + 1⟩

/-- The day-scoped activity path built by `ActivitySummaryForDay`. -/
def dayPath (dayString : String) : String :=
  "/user/-/activities/date/" ++ dayString ++ ".json"

/-- A concrete request, used to instantiate the executor theorems. -/
def stubReq : Request :=
  ⟨"GET", BASE_URL ++ "/user/-/profile.json", none,
   [("User-Agent", USER_AGENT)]⟩

/-- The stub body of the spec's end-to-end test:
`{"goals":{"steps":10000},"summary":{"steps":8000}}`. -/
def stubBody : Json :=
  .obj [("goals", .obj [("steps", .num 10000)]),
        ("summary", .obj [("steps", .num 8000)])]

/-- A body whose `goals` decode but whose `summary.steps` is a string,
so decoding into an `ActivitySummary` writes `Goals.Steps` and then
reports a type error. -/
def stubBadBody : Json :=
  .obj [("goals", .obj [("steps", .num 5)]),
        ("summary", .obj [("steps", .str "x")])]

/-- A stub server replying 200 with `stubBody` to every request. -/
def stubSend200 : Request → Except String Response :=
  fun _ => .ok ⟨200, some stubBody⟩

/-- A stub server replying 404 with `stubBody` to every request. -/
def stubSend404 : Request → Except String Response :=
  fun _ => .ok ⟨404, some stubBody⟩

/-- A stub server replying 200 with `stubBadBody` to every request. -/
def stubSendBad : Request → Except String Response :=
  fun _ => .ok ⟨200, some stubBadBody⟩

/-- A stub transport that fails to send every request. -/
def stubSendErr : Request → Except String Response :=
  fun _ => .error "connection refused"

/-- The current-user profile path used by `Client.UserProfile`. -/
def profilePath : String := "/user/-/profile.json"

/-- Prefixing a string of the modelled URL fragment with `BASE_URL`
stays in the fragment: the characters stay acceptable, and the
concatenation starts with the well-formed scheme of `BASE_URL`, which
settles the colon-placement check whatever the suffix is. -/
lemma validURLString_base_append {s : String}
    (h : validURLString s = true) :
    validURLString (BASE_URL ++ s) = true := by
  unfold validURLString at h ⊢
  rw [Bool.and_eq_true] at h
  rw [String.data_append, Bool.and_eq_true]
  refine ⟨?_, rfl⟩
  rw [List.all_append]
  have hb : BASE_URL.data.all simpleURLChar = true := by decide
  rw [hb, h.1]
  rfl

/-- `Client.Do` when the send itself fails: nil response, the transport
error, untouched destination, and no body was received to close. -/
lemma Do_send_error {α : Type} {send : Request → Except String Response}
    {req : Request} {e : String} (dec : Json → α → α × Option String)
    (dest : Option α) (h : send req = .error e) :
    Client.Do send dec req dest = ⟨none, some (.transport e), dest, 0⟩ := by
  unfold Client.Do
  rw [h]

/-- `Client.Do` on a response with a status outside [200, 299]: nil
response, a `RequestFailed` error carrying the raw response, untouched
destination, one close (the deferred one). -/
lemma Do_status_error {α : Type} {send : Request → Except String Response}
    {req : Request} {resp : Response}
    (dec : Json → α → α × Option String) (dest : Option α)
    (h : send req = .ok resp)
    (hs : resp.statusCode > 299 ∨ resp.statusCode < 200) :
    Client.Do send dec req dest =
      ⟨none, some (.requestFailed resp), dest, 1⟩ := by
  unfold Client.Do
  rw [h]
  simp only [if_pos hs]

/-- `Client.Do` on an in-range response with a nil destination: the
response and no error, one close, nothing decoded. -/
lemma Do_nil_dest {α : Type} {send : Request → Except String Response}
    {req : Request} {resp : Response}
    (dec : Json → α → α × Option String) (h : send req = .ok resp)
    (hs : ¬(resp.statusCode > 299 ∨ resp.statusCode < 200)) :
    Client.Do send dec req (none : Option α) = ⟨some resp, none, none, 1⟩ := by
  unfold Client.Do
  rw [h]
  simp only [if_neg hs]

/-- `Client.Do` on an in-range response whose body is not well-formed
JSON, with a non-nil destination: the response together with a decode
error, destination untouched, one close. -/
lemma Do_bad_body {α : Type} {send : Request → Except String Response}
    {req : Request} {resp : Response}
    (dec : Json → α → α × Option String) (d : α)
    (h : send req = .ok resp)
    (hs : ¬(resp.statusCode > 299 ∨ resp.statusCode < 200))
    (hb : resp.body = none) :
    Client.Do send dec req (some d) =
      ⟨some resp, some (.decodeError "invalid JSON"), some d, 1⟩ := by
  unfold Client.Do
  rw [h]
  simp only [if_neg hs, hb]

/-- `Client.Do` on an in-range response with JSON body `j` and non-nil
destination `d`: the response, the decoder's error (if any) wrapped as a
`DecodeError`, the decoder's output as the new destination contents, one
close. -/
lemma Do_decode {α : Type} {send : Request → Except String Response}
    {req : Request} {resp : Response} {j : Json}
    (dec : Json → α → α × Option String) (d : α)
    (h : send req = .ok resp)
    (hs : ¬(resp.statusCode > 299 ∨ resp.statusCode < 200))
    (hb : resp.body = some j) :
    Client.Do send dec req (some d) =
      ⟨some resp, (dec j d).2.map .decodeError, some (dec j d).1, 1⟩ := by
  unfold Client.Do
  rw [h]
  simp only [if_neg hs, hb]

/-- Whenever the send yields a response, `Client.Do` closes the body
exactly once, on every path through it. -/
lemma Do_closes_received {α : Type} {send : Request → Except String Response}
    {req : Request} {resp : Response}
    (dec : Json → α → α × Option String) (dest : Option α)
    (h : send req = .ok resp) :
    (Client.Do send dec req dest).closes = 1 := by
  by_cases hs : resp.statusCode > 299 ∨ resp.statusCode < 200
  · rw [Do_status_error dec dest h hs]
  · match dest with
    | none => rw [Do_nil_dest dec h hs]
    | some d =>
      match hb : resp.body with
      | none => rw [Do_bad_body dec d h hs hb]
      | some j => rw [Do_decode dec d h hs hb]

/-- When `Client.Do` returns an error that is not a decode error, the
destination cell is untouched. -/
lemma Do_dest_frame {α : Type} {send : Request → Except String Response}
    {req : Request} {e : ClientError}
    (dec : Json → α → α × Option String) (dest : Option α)
    (he : (Client.Do send dec req dest).err = some e)
    (hnd : ∀ m, e ≠ .decodeError m) :
    (Client.Do send dec req dest).dest = dest := by
  match hsend : send req with
  | .error s => rw [Do_send_error dec dest hsend]
  | .ok resp =>
    by_cases hs : resp.statusCode > 299 ∨ resp.statusCode < 200
    · rw [Do_status_error dec dest hsend hs]
    · match dest with
      | none => rw [Do_nil_dest dec hsend hs]
      | some d =>
        match hb : resp.body with
        | none => rw [Do_bad_body dec d hsend hs hb]
        | some j =>
          rw [Do_decode dec d hsend hs hb] at he ⊢
          exfalso
          match hr : (dec j d).2 with
          | none => rw [hr] at he; exact Option.noConfusion he
          | some m =>
            rw [hr] at he
            exact hnd m (Option.some.injEq .. ▸ he).symm

/-- Claim C1: for every executed request whose response has a status
code outside [200, 299], `Client.Do` returns a `RequestFailed` error
carrying the raw response (in the source the response is embedded in the
error message via `%#v`), and does not parse or decode the response body
as a structured error: the result is the same for every decoder `dec`
and every body, and the destination is untouched. -/
theorem c1_do_request_failed {α : Type}
    (send : Request → Except String Response)
    (dec : Json → α → α × Option String) (req : Request)
    (dest : Option α) (resp : Response) (hsend : send req = .ok resp)
    (hs : resp.statusCode > 299 ∨ resp.statusCode < 200) :
    Client.Do send dec req dest =
      ⟨none, some (.requestFailed resp), dest, 1⟩ :=
  Do_status_error dec dest hsend hs

/-- Claim C1, instantiated: a 404 response makes `Client.Do` return the
`RequestFailed` error carrying that response, with nothing decoded. -/
theorem c1_witness :
    Client.Do stubSend404 decodeActivitySummary stubReq
        (some ActivitySummary.zero) =
      ⟨none, some (.requestFailed ⟨404, some stubBody⟩),
       some ActivitySummary.zero, 1⟩ :=
  c1_do_request_failed stubSend404 decodeActivitySummary stubReq
    (some ActivitySummary.zero) ⟨404, some stubBody⟩ rfl
    (Or.inl (by decide))

/-- Claim C4: for every executed request whose response has a status
code outside [200, 299] and every destination, `Client.Do` returns an
error and the destination is left unmodified — no decode into it is
performed. -/
theorem c4_dest_unmodified_on_failure {α : Type}
    (send : Request → Except String Response)
    (dec : Json → α → α × Option String) (req : Request)
    (dest : Option α) (resp : Response) (hsend : send req = .ok resp)
    (hs : resp.statusCode > 299 ∨ resp.statusCode < 200) :
    (Client.Do send dec req dest).err.isSome = true ∧
      (Client.Do send dec req dest).dest = dest := by
  rw [Do_status_error dec dest hsend hs]
  exact ⟨rfl, rfl⟩

/-- Claim C4, instantiated at a 500 response and a zero
`UserProfile` destination. -/
theorem c4_witness :
    (Client.Do (fun _ => .ok ⟨500, some stubBody⟩) decodeUserProfile
        stubReq (some UserProfile.zero)).err.isSome = true ∧
      (Client.Do (fun _ => .ok ⟨500, some stubBody⟩) decodeUserProfile
        stubReq (some UserProfile.zero)).dest = some UserProfile.zero :=
  c4_dest_unmodified_on_failure (fun _ => .ok ⟨500, some stubBody⟩)
    decodeUserProfile stubReq (some UserProfile.zero)
    ⟨500, some stubBody⟩ rfl (Or.inl (by decide))

/-- Claim C5: for every response with status in [200, 299] whose body is
well-formed JSON that decodes into the non-nil destination without a
type error, `Client.Do` stores the decoded value in the destination and
returns no error. -/
theorem c5_do_decode_success {α : Type}
    (send : Request → Except String Response)
    (dec : Json → α → α × Option String) (req : Request) (d d' : α)
    (resp : Response) (j : Json) (hsend : send req = .ok resp)
    (h200 : 200 ≤ resp.statusCode) (h299 : resp.statusCode ≤ 299)
    (hb : resp.body = some j) (hdec : dec j d = (d', none)) :
    Client.Do send dec req (some d) = ⟨some resp, none, some d', 1⟩ := by
  have hs : ¬(resp.statusCode > 299 ∨ resp.statusCode < 200) := by omega
  rw [Do_decode dec d hsend hs hb, hdec]
  rfl

/-- Claim C5, instantiated: a 200 response carrying the stub body
decodes into the zero `ActivitySummary` with no error. -/
theorem c5_witness :
    Client.Do stubSend200 decodeActivitySummary stubReq
        (some ActivitySummary.zero) =
      ⟨some ⟨200, some stubBody⟩, none,
       some (decodeActivitySummary stubBody ActivitySummary.zero).1, 1⟩ :=
  c5_do_decode_success stubSend200 decodeActivitySummary stubReq
    ActivitySummary.zero
    (decodeActivitySummary stubBody ActivitySummary.zero).1
    ⟨200, some stubBody⟩ stubBody rfl (by decide) (by decide) rfl rfl

/-- Claim C9: the two failure classes of `Client.Do` are asymmetric in
the returned response.  When the send fails, or the status is outside
[200, 299], `Do` returns a nil response with the error; when the status
is in range and decoding into a non-nil destination reports a type
error, `Do` returns the non-nil response together with the decode error,
and the destination holds whatever the decoder produced (so it may have
been partially written). -/
theorem c9_response_asymmetry {α : Type}
    (send : Request → Except String Response)
    (dec : Json → α → α × Option String) (req : Request) :
    (∀ (dest : Option α) (e : String), send req = .error e →
      Client.Do send dec req dest = ⟨none, some (.transport e), dest, 0⟩) ∧
    (∀ (dest : Option α) (resp : Response), send req = .ok resp →
      (resp.statusCode > 299 ∨ resp.statusCode < 200) →
      Client.Do send dec req dest =
        ⟨none, some (.requestFailed resp), dest, 1⟩) ∧
    (∀ (d : α) (resp : Response) (j : Json) (m : String),
      send req = .ok resp →
      ¬(resp.statusCode > 299 ∨ resp.statusCode < 200) →
      resp.body = some j → (dec j d).2 = some m →
      Client.Do send dec req (some d) =
        ⟨some resp, some (.decodeError m), some (dec j d).1, 1⟩) := by
  refine ⟨fun dest e h => Do_send_error dec dest h,
          fun dest resp h hs => Do_status_error dec dest h hs,
          fun d resp j m h hs hb hm => ?_⟩
  rw [Do_decode dec d h hs hb, hm]
  rfl

/-- Claim C9, instantiated on all three classes: a failed send, a 404
response, and a 200 response whose body type-mismatches the
destination. -/
theorem c9_witness :
    Client.Do stubSendErr decodeActivitySummary stubReq
        (some ActivitySummary.zero) =
      ⟨none, some (.transport "connection refused"),
       some ActivitySummary.zero, 0⟩ ∧
    Client.Do stubSend404 decodeUserProfile stubReq none =
      ⟨none, some (.requestFailed ⟨404, some stubBody⟩), none, 1⟩ ∧
    Client.Do stubSendBad decodeActivitySummary stubReq
        (some ActivitySummary.zero) =
      ⟨some ⟨200, some stubBadBody⟩,
       some (.decodeError "cannot unmarshal into Summary.Steps"),
       some (decodeActivitySummary stubBadBody ActivitySummary.zero).1,
       1⟩ :=
  ⟨(c9_response_asymmetry stubSendErr decodeActivitySummary stubReq).1
      (some ActivitySummary.zero) "connection refused" rfl,
   (c9_response_asymmetry stubSend404 decodeUserProfile stubReq).2.1
      none ⟨404, some stubBody⟩ rfl (Or.inl (by decide)),
   (c9_response_asymmetry stubSendBad decodeActivitySummary stubReq).2.2
      ActivitySummary.zero ⟨200, some stubBadBody⟩ stubBadBody
      "cannot unmarshal into Summary.Steps" rfl (by decide) rfl rfl⟩

/-- Claim C10: for every request whose response has a status code in
[200, 299], calling `Client.Do` with a nil destination returns the
response and a nil error without reading or decoding the response body:
the equation holds for every decoder and every body, including a body
that is not well-formed JSON. -/
theorem c10_nil_dest_skips_decode {α : Type}
    (send : Request → Except String Response)
    (dec : Json → α → α × Option String) (req : Request)
    (resp : Response) (hsend : send req = .ok resp)
    (hs : ¬(resp.statusCode > 299 ∨ resp.statusCode < 200)) :
    Client.Do send dec req (none : Option α) =
      ⟨some resp, none, none, 1⟩ :=
  Do_nil_dest dec hsend hs

/-- Claim C10, instantiated at a 204 response with a body that is not
well-formed JSON: no error is reported because nothing is decoded. -/
theorem c10_witness :
    Client.Do (fun _ => .ok ⟨204, none⟩) decodeActivitySummary stubReq
        (none : Option ActivitySummary) = ⟨some ⟨204, none⟩, none, none, 1⟩ :=
  c10_nil_dest_skips_decode (fun _ => .ok ⟨204, none⟩)
    decodeActivitySummary stubReq ⟨204, none⟩ rfl (by decide)

/-- Claim C3, counterexample: `NewRequest` does not succeed for every
method string.  `http.NewRequest` (fitbit.go line 112) rejects a method
containing a non-token character, such as a space, and its error is
returned even though the path parses and the body is nil. -/
theorem c3_counterexample :
    validURLString "/user/x.json" = true ∧
    NewRequest "GET POST" "/user/x.json" none =
      .error (.malformedInput "net/http: invalid method") :=
  ⟨by decide, rfl⟩

/-- Claim C3 as amended: for every non-empty method string made of RFC
7230 token characters, and every path string that parses as a URL (in
the modelled fragment, where Go re-serialises the parsed URL verbatim),
with a nil body, `NewRequest` succeeds, the built request's address is
the plain string concatenation of the base URL with the path (no slash
normalization), and the request carries the fixed `User-Agent`
header. -/
theorem c3_new_request_concat (method path : String)
    (hm : validMethod method = true)
    (h : validURLString path = true) :
    NewRequest method path none =
      .ok ⟨method, BASE_URL ++ path, none,
           [("User-Agent", USER_AGENT)]⟩ := by
  have h2 : validURLString (BASE_URL ++ path) = true :=
    validURLString_base_append h
  have hne : ¬(method = "") := by
    intro he
    rw [he] at hm
    exact absurd hm (by decide)
  simp [NewRequest, urlParse, h, h2, httpNewRequest, hne, hm]

/-- Claim C3 as amended, instantiated at a path with a doubled slash,
which is concatenated verbatim with no normalization. -/
theorem c3_witness :
    validMethod "GET" = true ∧
    validURLString "//user//profile.json" = true ∧
    NewRequest "GET" "//user//profile.json" none =
      .ok ⟨"GET", "https://api.fitbit.com/1//user//profile.json", none,
           [("User-Agent", "go-fitbit-api:v0.0.1")]⟩ :=
  ⟨by decide, by decide,
   c3_new_request_concat "GET" "//user//profile.json" (by decide)
     (by decide)⟩

/-- Claim C6: for every non-nil payload whose JSON serialization fails,
`NewRequest` returns a `MalformedInput` error and no request (the
`Except.error` result carries no request value); the builder has no
access to the transport, so no network call can occur in it.  When the
path parses, the serialization error itself is what comes back. -/
theorem c6_unencodable_payload (method urlStr e : String) :
    (∃ msg, NewRequest method urlStr (some (.unencodable e)) =
      .error (.malformedInput msg)) ∧
    (validURLString urlStr = true →
      NewRequest method urlStr (some (.unencodable e)) =
        .error (.malformedInput e)) := by
  constructor
  · by_cases h : validURLString urlStr
    · by_cases h2 : validURLString (BASE_URL ++ urlStr)
      · exact ⟨e, by simp [NewRequest, urlParse, h, h2, encodePayload]⟩
      · exact ⟨"parse", by simp [NewRequest, urlParse, h, h2]⟩
    · exact ⟨"parse", by simp [NewRequest, urlParse, h]⟩
  · intro h
    have h2 : validURLString (BASE_URL ++ urlStr) = true :=
      validURLString_base_append h
    simp [NewRequest, urlParse, h, h2, encodePayload]

/-- Claim C6, instantiated at an unencodable payload (e.g. a channel
value): the serialization error comes back as `MalformedInput`. -/
theorem c6_witness :
    validURLString "/user/x.json" = true ∧
    NewRequest "POST" "/user/x.json"
        (some (.unencodable "unsupported type")) =
      .error (.malformedInput "unsupported type") :=
  ⟨by decide,
   (c6_unencodable_payload "POST" "/user/x.json" "unsupported type").2
     (by decide)⟩

/-- Claim C8: calling `ActivitySummaryForDay` with the date string
`"2013-06-27"` against a server replying 200 with the body
`{"goals":{"steps":10000},"summary":{"steps":8000}}` returns an
`ActivitySummary` with `Goals.Steps = 10000` and `Summary.Steps = 8000`
and no error. -/
theorem c8_end_to_end_activity :
    (Client.ActivitySummaryForDay stubSend200
        "2013-06-27").value.Goals.Steps = 10000 ∧
    (Client.ActivitySummaryForDay stubSend200
        "2013-06-27").value.Summary.Steps = 8000 ∧
    (Client.ActivitySummaryForDay stubSend200 "2013-06-27").err = none :=
  ⟨rfl, rfl, rfl⟩

/-- Shape of `Client.ActivitySummaryForDay` once the builder has
succeeded: the accessor is the `Do` call followed by the match on its
error, with the extra `resp.Body.Close()` on the success branch. -/
lemma ASFD_req_ok {send : Request → Except String Response}
    {day : String} {req : Request}
    (hreq : NewRequest "GET" (dayPath day) none = .ok req) :
    Client.ActivitySummaryForDay send day =
      match (Client.Do send decodeActivitySummary req
          (some ActivitySummary.zero)).err with
      | some e =>
        ⟨(Client.Do send decodeActivitySummary req
            (some ActivitySummary.zero)).dest.getD ActivitySummary.zero,
         some e,
         (Client.Do send decodeActivitySummary req
            (some ActivitySummary.zero)).closes⟩
      | none =>
        ⟨(Client.Do send decodeActivitySummary req
            (some ActivitySummary.zero)).dest.getD ActivitySummary.zero,
         none,
         (Client.Do send decodeActivitySummary req
            (some ActivitySummary.zero)).closes + 1⟩ := by
  unfold dayPath at hreq
  unfold Client.ActivitySummaryForDay
  rw [hreq]

/-- Shape of `Client.UserProfile` once the builder has succeeded. -/
lemma UProf_req_ok {send : Request → Except String Response}
    {req : Request}
    (hreq : NewRequest "GET" profilePath none = .ok req) :
    Client.UserProfile send =
      match (Client.Do send decodeUserProfile req
          (some UserProfile.zero)).err with
      | some e =>
        ⟨(Client.Do send decodeUserProfile req
            (some UserProfile.zero)).dest.getD UserProfile.zero,
         some e,
         (Client.Do send decodeUserProfile req
            (some UserProfile.zero)).closes⟩
      | none =>
        ⟨(Client.Do send decodeUserProfile req
            (some UserProfile.zero)).dest.getD UserProfile.zero,
         none,
         (Client.Do send decodeUserProfile req
            (some UserProfile.zero)).closes + 1⟩ := by
  unfold profilePath at hreq
  unfold Client.UserProfile
  rw [hreq]

/-- Claim C2, counterexample: on a successful `ActivitySummaryForDay`
call the response body is closed twice, not exactly once — `Do` closes
it with its deferred close and the accessor then calls
`resp.Body.Close()` again. -/
theorem c2_counterexample :
    (Client.ActivitySummaryForDay stubSend200 "2013-06-27").err = none ∧
    (Client.ActivitySummaryForDay stubSend200 "2013-06-27").closes = 2 ∧
    (Client.ActivitySummaryForDay stubSend200 "2013-06-27").closes ≠ 1 :=
  ⟨rfl, rfl, by decide⟩

/-- Claim C2 as amended: whenever a response is received, the executor
`Do` closes its body exactly once on every path through it (error
status and decode failure included); a call through an accessor closes
the body exactly once when the accessor fails after receiving a
response, but twice when it succeeds, because the accessor closes the
already-closed body again. -/
theorem c2_amended_close_counts :
    (∀ (α : Type) (send : Request → Except String Response)
        (dec : Json → α → α × Option String) (req : Request)
        (dest : Option α) (resp : Response), send req = .ok resp →
        (Client.Do send dec req dest).closes = 1) ∧
    (∀ (send : Request → Except String Response) (day : String)
        (req : Request) (resp : Response),
        NewRequest "GET" (dayPath day) none = .ok req →
        send req = .ok resp →
        ((Client.ActivitySummaryForDay send day).err.isSome = true →
          (Client.ActivitySummaryForDay send day).closes = 1) ∧
        ((Client.ActivitySummaryForDay send day).err = none →
          (Client.ActivitySummaryForDay send day).closes = 2)) ∧
    (∀ (send : Request → Except String Response) (req : Request)
        (resp : Response),
        NewRequest "GET" profilePath none = .ok req →
        send req = .ok resp →
        ((Client.UserProfile send).err.isSome = true →
          (Client.UserProfile send).closes = 1) ∧
        ((Client.UserProfile send).err = none →
          (Client.UserProfile send).closes = 2)) := by
  refine ⟨fun α send dec req dest resp h => Do_closes_received dec dest h,
          ?_, ?_⟩
  · intro send day req resp hreq hsend
    have hc := Do_closes_received decodeActivitySummary
      (some ActivitySummary.zero) hsend
    rw [ASFD_req_ok hreq]
    rcases hr : (Client.Do send decodeActivitySummary req
        (some ActivitySummary.zero)).err with _ | e
    · simp [hr, hc]
    · simp [hr, hc]
  · intro send req resp hreq hsend
    have hc := Do_closes_received decodeUserProfile
      (some UserProfile.zero) hsend
    rw [UProf_req_ok hreq]
    rcases hr : (Client.Do send decodeUserProfile req
        (some UserProfile.zero)).err with _ | e
    · simp [hr, hc]
    · simp [hr, hc]

/-- Claim C2 as amended, instantiated: `Do` closes once on a 200
response with a nil destination; a successful accessor call closes
twice; a failing (404) accessor call closes once. -/
theorem c2_witness :
    (Client.Do stubSend200 decodeActivitySummary stubReq
        (none : Option ActivitySummary)).closes = 1 ∧
    (Client.ActivitySummaryForDay stubSend200 "2013-06-28").closes = 2 ∧
    (Client.UserProfile stubSend404).closes = 1 :=
  ⟨c2_amended_close_counts.1 ActivitySummary stubSend200
      decodeActivitySummary stubReq none ⟨200, some stubBody⟩ rfl,
   (c2_amended_close_counts.2.1 stubSend200 "2013-06-28"
      ⟨"GET", BASE_URL ++ dayPath "2013-06-28", none,
       [("User-Agent", USER_AGENT)]⟩ ⟨200, some stubBody⟩ rfl rfl).2 rfl,
   (c2_amended_close_counts.2.2 stubSend404
      ⟨"GET", BASE_URL ++ profilePath, none,
       [("User-Agent", USER_AGENT)]⟩ ⟨404, some stubBody⟩ rfl rfl).1 rfl⟩

/-- Claim C7, counterexample: a failing accessor call need not return a
zero-value record.  Against a 200 response whose body decodes `goals`
but type-mismatches on `summary.steps`, `ActivitySummaryForDay` returns
the decode error together with a record whose `Goals.Steps` was already
written through the destination pointer by `Do`. -/
theorem c7_counterexample :
    (Client.ActivitySummaryForDay stubSendBad "2013-06-27").err =
      some (.decodeError "cannot unmarshal into Summary.Steps") ∧
    (Client.ActivitySummaryForDay stubSendBad
        "2013-06-27").value.Goals.Steps = 5 ∧
    (Client.ActivitySummaryForDay stubSendBad "2013-06-27").value ≠
      ActivitySummary.zero :=
  ⟨rfl, rfl, by decide⟩

/-- Claim C7 as amended: every failing accessor call returns the error
produced by the builder or executor unchanged, and the accompanying
record is the content of the destination after the call — the zero
value when the builder fails or when the executor fails with a
transport or status error, but possibly partially decoded data when
the executor fails with a decode error. -/
theorem c7_amended_error_propagation :
    (∀ (send : Request → Except String Response) (day : String)
        (e : ClientError), NewRequest "GET" (dayPath day) none = .error e →
        Client.ActivitySummaryForDay send day =
          ⟨ActivitySummary.zero, some e, 0⟩) ∧
    (∀ (send : Request → Except String Response) (day : String)
        (req : Request) (e : ClientError),
        NewRequest "GET" (dayPath day) none = .ok req →
        (Client.Do send decodeActivitySummary req
          (some ActivitySummary.zero)).err = some e →
        (Client.ActivitySummaryForDay send day).err = some e ∧
        (Client.ActivitySummaryForDay send day).value =
          (Client.Do send decodeActivitySummary req
            (some ActivitySummary.zero)).dest.getD ActivitySummary.zero) ∧
    (∀ (send : Request → Except String Response) (day : String)
        (req : Request) (e : ClientError),
        NewRequest "GET" (dayPath day) none = .ok req →
        (Client.Do send decodeActivitySummary req
          (some ActivitySummary.zero)).err = some e →
        (∀ m, e ≠ .decodeError m) →
        (Client.ActivitySummaryForDay send day).value =
          ActivitySummary.zero) ∧
    (∀ (send : Request → Except String Response) (e : ClientError),
        NewRequest "GET" profilePath none = .error e →
        Client.UserProfile send = ⟨UserProfile.zero, some e, 0⟩) ∧
    (∀ (send : Request → Except String Response) (req : Request)
        (e : ClientError),
        NewRequest "GET" profilePath none = .ok req →
        (Client.Do send decodeUserProfile req
          (some UserProfile.zero)).err = some e →
        (Client.UserProfile send).err = some e ∧
        (Client.UserProfile send).value =
          (Client.Do send decodeUserProfile req
            (some UserProfile.zero)).dest.getD UserProfile.zero) ∧
    (∀ (send : Request → Except String Response) (req : Request)
        (e : ClientError),
        NewRequest "GET" profilePath none = .ok req →
        (Client.Do send decodeUserProfile req
          (some UserProfile.zero)).err = some e →
        (∀ m, e ≠ .decodeError m) →
        (Client.UserProfile send).value = UserProfile.zero) := by
  refine ⟨?_, ?_, ?_, ?_, ?_, ?_⟩
  · intro send day e he
    unfold dayPath at he
    unfold Client.ActivitySummaryForDay
    rw [he]
  · intro send day req e hreq hr
    rw [ASFD_req_ok hreq, hr]
    exact ⟨rfl, rfl⟩
  · intro send day req e hreq hr hnd
    rw [ASFD_req_ok hreq, hr]
    show (Client.Do send decodeActivitySummary req
      (some ActivitySummary.zero)).dest.getD ActivitySummary.zero =
        ActivitySummary.zero
    rw [Do_dest_frame decodeActivitySummary (some ActivitySummary.zero)
      hr hnd]
    rfl
  · intro send e he
    unfold profilePath at he
    unfold Client.UserProfile
    rw [he]
  · intro send req e hreq hr
    rw [UProf_req_ok hreq, hr]
    exact ⟨rfl, rfl⟩
  · intro send req e hreq hr hnd
    rw [UProf_req_ok hreq, hr]
    show (Client.Do send decodeUserProfile req
      (some UserProfile.zero)).dest.getD UserProfile.zero =
        UserProfile.zero
    rw [Do_dest_frame decodeUserProfile (some UserProfile.zero) hr hnd]
    rfl

/-- Claim C7 as amended, instantiated: a day string with spaces makes
the builder fail and the accessor return the zero summary with that
error; a decode failure propagates unchanged with the partially decoded
record; a 404 leaves the profile at its zero value. -/
theorem c7_witness :
    Client.ActivitySummaryForDay stubSend200 "2013 06 27" =
      ⟨ActivitySummary.zero, some (.malformedInput "parse"), 0⟩ ∧
    (Client.ActivitySummaryForDay stubSendBad "2013-06-28").err =
      some (.decodeError "cannot unmarshal into Summary.Steps") ∧
    (Client.UserProfile stubSend404).value = UserProfile.zero :=
  ⟨c7_amended_error_propagation.1 stubSend200 "2013 06 27"
      (.malformedInput "parse") rfl,
   (c7_amended_error_propagation.2.1 stubSendBad "2013-06-28"
      ⟨"GET", BASE_URL ++ dayPath "2013-06-28", none,
       [("User-Agent", USER_AGENT)]⟩
      (.decodeError "cannot unmarshal into Summary.Steps") rfl rfl).1,
   c7_amended_error_propagation.2.2.2.2.2 stubSend404
      ⟨"GET", BASE_URL ++ profilePath, none,
       [("User-Agent", USER_AGENT)]⟩
      (.requestFailed ⟨404, some stubBody⟩) rfl rfl
      (fun _ h => nomatch h)⟩
